import Mathlib

/-!
Verification of the AD9081 clocking model (`adijif/converters/ad9081.py`).

The Python code builds, per device-model instance, a `config` namespace
mapping names to solver variables (discrete domains), constants, and derived
intermediate expressions, and registers a list of inequality constraints.
We embed the build shallowly: clock values are rationals, a solved discrete
assignment is passed explicitly, and each `config` entry records its kind,
declared domain and solved value.  Constraints registered by `_add_equation`
become an explicit list of `lhs ≤ rhs` pairs.
-/

namespace AD9081

/-- Kind and solved value of one entry of a device model's `config` namespace:
a discrete solver variable with its declared domain (`_convert_input` on a
list), a constant (`_convert_input` on a scalar), or a derived intermediate
expression (`_add_intermediate` / plain algebraic expression). -/
inductive Entry where
  | dvar (domain : List Nat) (value : Nat)
  | const (value : ℚ)
  | expr (value : ℚ)
deriving DecidableEq

/-- Domain of `m_vco` (`m_vco_available = [5, 7, 8, 11]`). -/
def m_vco_available : List Nat := [5, 7, 8, 11]

/-- Domain of `n_vco` (`[*range(2, 51)]`, i.e. 2..50). -/
def n_vco_available : List Nat := List.range' 2 49

/-- Domain of `r` (`r_available = [1, 2, 3, 4]`). -/
def r_available : List Nat := [1, 2, 3, 4]

/-- Domain of `d` (`d_available = [1, 2, 3, 4]`). -/
def d_available : List Nat := [1, 2, 3, 4]

/-- Allowed high-speed-to-ADC-clock divide ratios (`l_available = [1, 2, 3, 4]`). -/
def l_available : List Nat := [1, 2, 3, 4]

/-- Domain of every `lmfc_divisor_sysref` variable (`[*range(1, 21)]`, i.e. 1..20). -/
def lmfc_divisor_domain : List Nat := List.range' 1 20

/-- Phase-frequency-detector lower limit, `pfd_min = 25e6`. -/
def pfd_min : ℚ := 25000000

/-- Phase-frequency-detector upper limit, `pfd_max = 750e6`. -/
def pfd_max : ℚ := 750000000

/-- VCO lower limit, `vco_min = 6e9`. -/
def vco_min : ℚ := 6000000000

/-- VCO upper limit, `vco_max = 12e9`. -/
def vco_max : ℚ := 12000000000

/-- RX path `converter_clock_min = 1.45e9`. -/
def ad9081_rx.converter_clock_min : ℚ := 1450000000

/-- RX path `converter_clock_max = 4e9`. -/
def ad9081_rx.converter_clock_max : ℚ := 4000000000

/-- TX path `converter_clock_min = 2.9e9`. -/
def ad9081_tx.converter_clock_min : ℚ := 2900000000

/-- TX path `converter_clock_max = 12e9`. -/
def ad9081_tx.converter_clock_max : ℚ := 12000000000

/-- Solved values of the four discrete PLL variables created by `_pll_config`. -/
structure PllAssign where
  m_vco : Nat
  n_vco : Nat
  r : Nat
  d : Nat
deriving DecidableEq

/-- Each PLL variable lies in its declared discrete domain. -/
def PllAssign.Valid (a : PllAssign) : Prop :=
  a.m_vco ∈ m_vco_available ∧ a.n_vco ∈ n_vco_available ∧
    a.r ∈ r_available ∧ a.d ∈ d_available

instance (a : PllAssign) : Decidable a.Valid := by
  unfold PllAssign.Valid
  infer_instance

/-- Intermediate `ref_clk = converter_clk * d * r / (m_vco * n_vco)` from
`_pll_config`. -/
def ref_clk (converter_clk : ℚ) (a : PllAssign) : ℚ :=
  converter_clk * (a.d : ℚ) * (a.r : ℚ) / ((a.m_vco : ℚ) * (a.n_vco : ℚ))

/-- Intermediate `vco = ref_clk * m_vco * n_vco / r` from `_pll_config`. -/
def vco (converter_clk : ℚ) (a : PllAssign) : ℚ :=
  ref_clk converter_clk a * (a.m_vco : ℚ) * (a.n_vco : ℚ) / (a.r : ℚ)

/-- Constraint list registered by `_add_equation` in `_pll_config`, as
`lhs ≤ rhs` pairs, in registration order.  `cc_min`/`cc_max` are the
converter-clock bounds the call selects (`self.*` when `rxtx` is false,
`self.dac.*` when `rxtx` is true). -/
def pll_equations (converter_clk cc_min cc_max : ℚ) (a : PllAssign) :
    List (ℚ × ℚ) :=
  [(vco_min, vco converter_clk a),
   (vco converter_clk a, vco_max),
   (ref_clk converter_clk a / (a.r : ℚ), pfd_max),
   (pfd_min, ref_clk converter_clk a / (a.r : ℚ)),
   (cc_min, converter_clk),
   (converter_clk, cc_max)]

/-- Every registered inequality holds (the solver satisfied the constraint set). -/
def holds (eqs : List (ℚ × ℚ)) : Prop := ∀ p ∈ eqs, p.1 ≤ p.2

instance (eqs : List (ℚ × ℚ)) : Decidable (holds eqs) := by
  unfold holds
  infer_instance

/-- Config entries added by `_pll_config` after `_converter_clock_config`,
in insertion order. -/
def pll_entries (converter_clk : ℚ) (a : PllAssign) : List (String × Entry) :=
  [("m_vco", .dvar m_vco_available a.m_vco),
   ("n_vco", .dvar n_vco_available a.n_vco),
   ("r", .dvar r_available a.r),
   ("d", .dvar d_available a.d),
   ("ref_clk", .expr (ref_clk converter_clk a)),
   ("vco", .expr (vco converter_clk a))]

/-- Result of one `get_required_clocks` call: the rebuilt `config` namespace,
the registered constraint list, and the returned clock quantities. -/
structure Build where
  config : List (String × Entry)
  equations : List (ℚ × ℚ)
  clocks : List ℚ
deriving DecidableEq

/-- Shared `_pll_config`: runs the variant's `_converter_clock_config`
(passed as `ccc`, already evaluated: its config entries plus the
`converter_clk` value, or the exception it raised), then adds the PLL
variables, the `ref_clk` and `vco` intermediates, and the constraint list,
returning `ref_clk`. -/
def ad9081_core.pll_config (ccc : Except String (List (String × Entry) × ℚ))
    (cc_min cc_max : ℚ) (a : PllAssign) :
    Except String (List (String × Entry) × List (ℚ × ℚ) × ℚ) :=
  match ccc with
  | .error e => .error e
  | .ok (entries, converter_clk) =>
      .ok (entries ++ pll_entries converter_clk a,
           pll_equations converter_clk cc_min cc_max a,
           ref_clk converter_clk a)

/-- Discrete settings of an `ad9081_rx` instance used by its clock build. -/
structure RxSettings where
  sample_clock : ℚ
  decimation : ℚ
  multiframe_clock : ℚ
  solver : String
  clocking_option : String
deriving DecidableEq

/-- Discrete settings of an `ad9081_tx` instance used by its clock build. -/
structure TxSettings where
  sample_clock : ℚ
  interpolation : ℚ
  multiframe_clock : ℚ
  solver : String
  clocking_option : String
deriving DecidableEq

/-- Discrete settings of a combined `ad9081` instance used by its clock
build: the ADC and DAC sub-model attributes it reads, plus its own solver
tag and clocking option.  `adc_clocking_option` is the ADC sub-model's
clocking option, read by `get_required_clock_names`. -/
structure CombinedSettings where
  adc_sample_clock : ℚ
  adc_decimation : ℚ
  adc_multiframe_clock : ℚ
  adc_clocking_option : String
  dac_sample_clock : ℚ
  dac_interpolation : ℚ
  dac_multiframe_clock : ℚ
  solver : String
  clocking_option : String
deriving DecidableEq

/-- Local `adc_clk = self.decimation * self.sample_clock` of the RX
`_converter_clock_config`. -/
def ad9081_rx.adc_clk (s : RxSettings) : ℚ := s.decimation * s.sample_clock

/-- RX `_converter_clock_config`: `adc_clk = decimation * sample_clock`,
a discrete divider variable `l` over `[1,2,3,4]`, and
`converter_clk = adc_clk * l`.  Unknown solver raises. -/
def ad9081_rx.converter_clock_config (s : RxSettings) (l : Nat) :
    Except String (List (String × Entry) × ℚ) :=
  if s.solver = "gekko" ∨ s.solver = "CPLEX" then
    .ok ([("l", .dvar l_available l),
          ("adc_clk", .const (ad9081_rx.adc_clk s)),
          ("converter_clk", .expr (ad9081_rx.adc_clk s * (l : ℚ)))],
         ad9081_rx.adc_clk s * (l : ℚ))
  else
    .error ("Unknown solver " ++ s.solver)

/-- Local `dac_clk = self.interpolation * self.sample_clock` of the TX
`_converter_clock_config`. -/
def ad9081_tx.dac_clk (s : TxSettings) : ℚ := s.interpolation * s.sample_clock

/-- TX `_converter_clock_config`: `dac_clk = interpolation * sample_clock`
and `converter_clk = dac_clk` directly; no divider variable is created.
Unknown solver raises. -/
def ad9081_tx.converter_clock_config (s : TxSettings) :
    Except String (List (String × Entry) × ℚ) :=
  if s.solver = "gekko" ∨ s.solver = "CPLEX" then
    .ok ([("dac_clk", .const (ad9081_tx.dac_clk s)),
          ("converter_clk", .expr (ad9081_tx.dac_clk s))],
         ad9081_tx.dac_clk s)
  else
    .error ("Unknown solver " ++ s.solver)

/-- Message of the exception raised by the combined `_converter_clock_config`
when `dac_clk / adc_clk` is not an allowed divide ratio. -/
def ratio_error_message (l : ℚ) : String :=
  "ADC clock must be DAC clock/L where L=[1, 2, 3, 4]. Got " ++ toString l

/-- Local `adc_clk = self.adc.decimation * self.adc.sample_clock` of the
combined `_converter_clock_config`. -/
def ad9081.adc_clk (s : CombinedSettings) : ℚ :=
  s.adc_decimation * s.adc_sample_clock

/-- Local `dac_clk = self.dac.interpolation * self.dac.sample_clock` of the
combined `_converter_clock_config`. -/
def ad9081.dac_clk (s : CombinedSettings) : ℚ :=
  s.dac_interpolation * s.dac_sample_clock

/-- Local `l = dac_clk / adc_clk` of the combined
`_converter_clock_config`. -/
def ad9081.l_ratio (s : CombinedSettings) : ℚ :=
  ad9081.dac_clk s / ad9081.adc_clk s

/-- Combined `_converter_clock_config`: checks `l = dac_clk / adc_clk` is in
`l_available` (raising otherwise, before any config entry is written), then
records `dac_clk`, `adc_clk` and `converter_clk = dac_clk`. -/
def ad9081.converter_clock_config (s : CombinedSettings) :
    Except String (List (String × Entry) × ℚ) :=
  if ad9081.l_ratio s ∈ l_available.map (fun n => (n : ℚ)) then
    if s.solver = "gekko" ∨ s.solver = "CPLEX" then
      .ok ([("dac_clk", .const (ad9081.dac_clk s)),
            ("adc_clk", .const (ad9081.adc_clk s)),
            ("converter_clk", .expr (ad9081.dac_clk s))],
           ad9081.dac_clk s)
    else
      .error ("Unknown solver " ++ s.solver)
  else
    .error (ratio_error_message (ad9081.l_ratio s))

/-- Solved values of the discrete variables an RX clock build creates. -/
structure RxAssign where
  lmfc_divisor_sysref : Nat
  l : Nat
  pll : PllAssign
deriving DecidableEq

/-- Solved values of the discrete variables a TX clock build creates. -/
structure TxAssign where
  lmfc_divisor_sysref : Nat
  pll : PllAssign
deriving DecidableEq

/-- Solved values of the discrete variables a combined clock build creates. -/
structure CombinedAssign where
  adc_lmfc_divisor_sysref : Nat
  dac_lmfc_divisor_sysref : Nat
  pll : PllAssign
deriving DecidableEq

/-- Intermediate `sysref = multiframe_clock / (lmfc_divisor_sysref *
lmfc_divisor_sysref)` created by the single-path `get_required_clocks`. -/
def rx_sysref (s : RxSettings) (a : RxAssign) : ℚ :=
  s.multiframe_clock /
    ((a.lmfc_divisor_sysref : ℚ) * (a.lmfc_divisor_sysref : ℚ))

/-- TX counterpart of `rx_sysref`. -/
def tx_sysref (s : TxSettings) (a : TxAssign) : ℚ :=
  s.multiframe_clock /
    ((a.lmfc_divisor_sysref : ℚ) * (a.lmfc_divisor_sysref : ℚ))

/-- Config entries the single-path `get_required_clocks` creates before
device clocking: the `lmfc_divisor_sysref` variable and, for a known
solver, the `sysref` intermediate. -/
def rx_base_config (s : RxSettings) (a : RxAssign) : List (String × Entry) :=
  ("lmfc_divisor_sysref", .dvar lmfc_divisor_domain a.lmfc_divisor_sysref) ::
    (if s.solver = "gekko" ∨ s.solver = "CPLEX" then
      [("sysref", .expr (rx_sysref s a))]
    else [])

/-- TX counterpart of `rx_base_config`. -/
def tx_base_config (s : TxSettings) (a : TxAssign) : List (String × Entry) :=
  ("lmfc_divisor_sysref", .dvar lmfc_divisor_domain a.lmfc_divisor_sysref) ::
    (if s.solver = "gekko" ∨ s.solver = "CPLEX" then
      [("sysref", .expr (tx_sysref s a))]
    else [])

/-- Method `ad9081_core.get_required_clocks` specialized to the RX variant:
rebuilds `config` from scratch (the previous namespace is discarded),
creates `lmfc_divisor_sysref` over 1..20 and the
`sysref = multiframe_clock / (lmfc_divisor_sysref^2)` intermediate, raises
for direct clocking, otherwise runs `_pll_config` with the instance's own
converter-clock bounds and returns `[ref_clk, sysref]`. -/
def ad9081_rx.get_required_clocks (s : RxSettings) (a : RxAssign) :
    Except String Build :=
  if s.clocking_option = "direct" then
    .error "Not implemented yet"
  else
    match ad9081_core.pll_config (ad9081_rx.converter_clock_config s a.l)
        ad9081_rx.converter_clock_min ad9081_rx.converter_clock_max a.pll with
    | .error e => .error e
    | .ok (entries, eqs, clk) =>
        .ok ⟨rx_base_config s a ++ entries, eqs, [clk, rx_sysref s a]⟩

/-- Method `ad9081_core.get_required_clocks` specialized to the TX variant. -/
def ad9081_tx.get_required_clocks (s : TxSettings) (a : TxAssign) :
    Except String Build :=
  if s.clocking_option = "direct" then
    .error "Not implemented yet"
  else
    match ad9081_core.pll_config (ad9081_tx.converter_clock_config s)
        ad9081_tx.converter_clock_min ad9081_tx.converter_clock_max a.pll with
    | .error e => .error e
    | .ok (entries, eqs, clk) =>
        .ok ⟨tx_base_config s a ++ entries, eqs, [clk, tx_sysref s a]⟩

/-- Intermediate `sysref_adc = adc.multiframe_clock /
(adc_lmfc_divisor_sysref * adc_lmfc_divisor_sysref)` of the combined
`get_required_clocks`. -/
def adc_sysref (s : CombinedSettings) (a : CombinedAssign) : ℚ :=
  s.adc_multiframe_clock /
    ((a.adc_lmfc_divisor_sysref : ℚ) * (a.adc_lmfc_divisor_sysref : ℚ))

/-- Intermediate `sysref_dac = dac.multiframe_clock /
(dac_lmfc_divisor_sysref * dac_lmfc_divisor_sysref)` of the combined
`get_required_clocks`. -/
def dac_sysref (s : CombinedSettings) (a : CombinedAssign) : ℚ :=
  s.dac_multiframe_clock /
    ((a.dac_lmfc_divisor_sysref : ℚ) * (a.dac_lmfc_divisor_sysref : ℚ))

/-- Config entries the combined `get_required_clocks` creates before device
clocking: the two lmfc divisor variables and the two sysref intermediates
(the latter only reached with a known solver). -/
def combined_base_config (s : CombinedSettings) (a : CombinedAssign) :
    List (String × Entry) :=
  [("adc_lmfc_divisor_sysref",
      .dvar lmfc_divisor_domain a.adc_lmfc_divisor_sysref),
   ("dac_lmfc_divisor_sysref",
      .dvar lmfc_divisor_domain a.dac_lmfc_divisor_sysref),
   ("sysref_adc", .expr (adc_sysref s a)),
   ("sysref_dac", .expr (dac_sysref s a))]

/-- Combined `ad9081.get_required_clocks`: rebuilds `config` from scratch,
creates the two `lmfc` divisor variables over 1..20 and the two sysref
intermediates (raising for an unknown solver), raises for direct clocking,
otherwise runs `_pll_config` with `rxtx=True` (so with the DAC sub-model's
converter-clock bounds) and returns `[ref_clk, sysref_adc, sysref_dac]`. -/
def ad9081.get_required_clocks (s : CombinedSettings) (a : CombinedAssign) :
    Except String Build :=
  if s.solver = "gekko" ∨ s.solver = "CPLEX" then
    if s.clocking_option = "direct" then
      .error "Not implemented yet"
    else
      match ad9081_core.pll_config (ad9081.converter_clock_config s)
          ad9081_tx.converter_clock_min ad9081_tx.converter_clock_max
          a.pll with
      | .error e => .error e
      | .ok (entries, eqs, clk) =>
          .ok ⟨combined_base_config s a ++ entries, eqs,
               [clk, adc_sysref s a, dac_sysref s a]⟩
  else
    .error ("Unknown solver " ++ s.solver)

/-- Method `ad9081_core.get_required_clock_names`: the reference name depends on
the instance's own clocking option. -/
def ad9081_core.get_required_clock_names (clocking_option : String) :
    List String :=
  [if clocking_option = "direct" then "ad9081_dac_clock" else "ad9081_pll_ref",
   "ad9081_sysref"]

/-- Combined `ad9081.get_required_clock_names`: the first name is chosen by
the ADC sub-model's clocking option (`self.adc.clocking_option`), not the
combined instance's own. -/
def ad9081.get_required_clock_names (s : CombinedSettings) : List String :=
  [if s.adc_clocking_option = "direct" then "ad9081_dac_clock"
    else "ad9081_pll_ref",
   "ad9081_adc_sysref", "ad9081_dac_sysref"]

/-- Method `ad9081_core.get_config`: returns the `clocking_option` mapping
unconditionally; the `solution` argument is never inspected and no
solve-state check is performed. -/
def ad9081_core.get_config (clocking_option : String)
    (solution : Option Unit) : Except String (List (String × String)) :=
  .ok [("clocking_option", clocking_option)]

/-- An `ad9081_rx` instance: its discrete settings and its `config`
namespace (mutable scratch state in the Python object). -/
structure RxState where
  settings : RxSettings
  config : List (String × Entry)
deriving DecidableEq

/-- Instance-level RX `get_required_clocks` call: the old `config` is
discarded (`self.config = {}`) and replaced by the freshly built one. -/
def RxState.call (st : RxState) (a : RxAssign) : Except String RxState :=
  match ad9081_rx.get_required_clocks st.settings a with
  | .error e => .error e
  | .ok b => .ok ⟨st.settings, b.config⟩

/-- A combined `ad9081` instance: its settings, the ADC and DAC sub-model
`config` namespaces, and its own `config` namespace. -/
structure Ad9081State where
  settings : CombinedSettings
  adc_config : List (String × Entry)
  dac_config : List (String × Entry)
  config : List (String × Entry)
deriving DecidableEq

/-- Instance-level combined `get_required_clocks` call: `self.config` is
discarded and rebuilt; the ADC and DAC sub-model namespaces are not
touched (the code only reads their attributes). -/
def Ad9081State.call (st : Ad9081State) (a : CombinedAssign) :
    Except String Ad9081State :=
  match ad9081.get_required_clocks st.settings a with
  | .error e => .error e
  | .ok b => .ok ⟨st.settings, st.adc_config, st.dac_config, b.config⟩

/-- Membership in `m_vco_available` implies positivity. -/
lemma m_vco_pos {m : Nat} (h : m ∈ m_vco_available) : 0 < m := by
  simp [m_vco_available] at h
  rcases h with rfl | rfl | rfl | rfl <;> norm_num

/-- Membership in `n_vco_available` implies positivity. -/
lemma n_vco_pos {n : Nat} (h : n ∈ n_vco_available) : 0 < n := by
  simp [n_vco_available, List.mem_range'_1] at h
  omega

/-- Membership in `r_available` implies positivity. -/
lemma r_pos {r : Nat} (h : r ∈ r_available) : 0 < r := by
  simp [r_available] at h
  rcases h with rfl | rfl | rfl | rfl <;> norm_num

/-- Membership in `d_available` implies positivity. -/
lemma d_pos {d : Nat} (h : d ∈ d_available) : 0 < d := by
  simp [d_available] at h
  rcases h with rfl | rfl | rfl | rfl <;> norm_num

/-- C1: for every solved PLL-clocked configuration (a converter clock and an
assignment of `m_vco, n_vco, r, d` inside their declared discrete domains),
the extracted values satisfy the integer-PLL relation exactly over ℚ:
recomputing the converter clock as `((m_vco * n_vco) / r * ref_clk) / d`
returns exactly the converter clock the build started from, and
`vco = ref_clk * m_vco * n_vco / r`. -/
theorem C1_pll_roundtrip (converter_clk : ℚ) (a : PllAssign) (h : a.Valid) :
    ((a.m_vco : ℚ) * (a.n_vco : ℚ)) / (a.r : ℚ) * ref_clk converter_clk a /
        (a.d : ℚ) = converter_clk ∧
    vco converter_clk a =
      ref_clk converter_clk a * (a.m_vco : ℚ) * (a.n_vco : ℚ) / (a.r : ℚ) := by
  obtain ⟨hm, hn, hr, hd⟩ := h
  have hm0 : (a.m_vco : ℚ) ≠ 0 := by exact_mod_cast (m_vco_pos hm).ne'
  have hn0 : (a.n_vco : ℚ) ≠ 0 := by exact_mod_cast (n_vco_pos hn).ne'
  have hr0 : (a.r : ℚ) ≠ 0 := by exact_mod_cast (r_pos hr).ne'
  have hd0 : (a.d : ℚ) ≠ 0 := by exact_mod_cast (d_pos hd).ne'
  constructor
  · unfold ref_clk
    field_simp
    ring
  · rfl

/-- Witness for C1 at a concrete solved point: converter clock 6 GHz with
`m_vco = 8`, `n_vco = 30`, `r = 1`, `d = 1` (so `ref_clk` is 25 MHz). -/
theorem C1_pll_roundtrip_witness :
    PllAssign.Valid ⟨8, 30, 1, 1⟩ ∧
    ((8 : ℚ) * 30) / 1 * ref_clk 6000000000 ⟨8, 30, 1, 1⟩ / 1 = 6000000000 := by
  have h := C1_pll_roundtrip 6000000000 ⟨8, 30, 1, 1⟩ (by decide)
  exact ⟨by decide, by simpa using h.1⟩

/-- The combined `_converter_clock_config` only succeeds with
`converter_clk = interpolation * sample_clock` of the DAC path. -/
lemma combined_ccc_value {s : CombinedSettings} {e : List (String × Entry)}
    {cc : ℚ} (h : ad9081.converter_clock_config s = .ok (e, cc)) :
    cc = ad9081.dac_clk s := by
  unfold ad9081.converter_clock_config at h
  split at h
  · split at h
    · simp only [Except.ok.injEq, Prod.mk.injEq] at h
      exact h.2.symm
    · simp at h
  · simp at h

/-- A successful combined `get_required_clocks` registers exactly the
`_pll_config` constraint list, with the DAC sub-model's converter-clock
bounds and the DAC-path converter clock. -/
lemma combined_build_equations {s : CombinedSettings} {a : CombinedAssign}
    {b : Build} (h : ad9081.get_required_clocks s a = .ok b) :
    b.equations =
      pll_equations (ad9081.dac_clk s)
        ad9081_tx.converter_clock_min ad9081_tx.converter_clock_max a.pll := by
  unfold ad9081.get_required_clocks at h
  split at h
  · split at h
    · simp at h
    · unfold ad9081_core.pll_config at h
      cases hc : ad9081.converter_clock_config s with
      | error e => rw [hc] at h; simp at h
      | ok p =>
          obtain ⟨entries, cc⟩ := p
          rw [hc] at h
          simp only [Except.ok.injEq] at h
          rw [← h, combined_ccc_value hc]
  · simp at h

/-- A successful RX `get_required_clocks` registers exactly the
`_pll_config` constraint list, with the RX instance's own converter-clock
bounds and converter clock `decimation * sample_clock * l`. -/
lemma rx_build_equations {s : RxSettings} {a : RxAssign} {b : Build}
    (h : ad9081_rx.get_required_clocks s a = .ok b) :
    b.equations =
      pll_equations (ad9081_rx.adc_clk s * (a.l : ℚ))
        ad9081_rx.converter_clock_min ad9081_rx.converter_clock_max a.pll := by
  unfold ad9081_rx.get_required_clocks at h
  split at h
  · simp at h
  · cases hc : ad9081_rx.converter_clock_config s a.l with
    | error e => rw [hc] at h; simp [ad9081_core.pll_config] at h
    | ok p =>
        obtain ⟨entries, cc⟩ := p
        rw [hc] at h
        simp only [ad9081_core.pll_config, Except.ok.injEq] at h
        have hcc : cc = ad9081_rx.adc_clk s * (a.l : ℚ) := by
          unfold ad9081_rx.converter_clock_config at hc
          split at hc
          · simp only [Except.ok.injEq, Prod.mk.injEq] at hc
            exact hc.2.symm
          · simp at hc
        rw [← h, hcc]

/-- Unpacking of a satisfied `_pll_config` constraint list into the six
registered inequalities. -/
lemma holds_pll_equations {cc cmin cmax : ℚ} {a : PllAssign}
    (h : holds (pll_equations cc cmin cmax a)) :
    vco_min ≤ vco cc a ∧ vco cc a ≤ vco_max ∧
    ref_clk cc a / (a.r : ℚ) ≤ pfd_max ∧
    pfd_min ≤ ref_clk cc a / (a.r : ℚ) ∧
    cmin ≤ cc ∧ cc ≤ cmax := by
  refine ⟨h (vco_min, vco cc a) ?_, h (vco cc a, vco_max) ?_,
          h (ref_clk cc a / (a.r : ℚ), pfd_max) ?_,
          h (pfd_min, ref_clk cc a / (a.r : ℚ)) ?_,
          h (cmin, cc) ?_, h (cc, cmax) ?_⟩ <;>
    simp [pll_equations]

/-- Concrete combined settings for the C2 analysis: DAC clock 6 GHz
(interpolation 1, sample clock 6 GHz), ADC clock 3 GHz (ratio 2), CPLEX
solver, integrated PLL.  Field order: adc_sample_clock, adc_decimation,
adc_multiframe_clock, adc_clocking_option, dac_sample_clock,
dac_interpolation, dac_multiframe_clock, solver, clocking_option. -/
def exS : CombinedSettings :=
  ⟨3000000000, 1, 1000000, "integrated_pll",
   6000000000, 1, 1000000, "CPLEX", "integrated_pll"⟩

/-- Concrete combined assignment for the C2 analysis: both lmfc divisors 1,
`m_vco = 8`, `n_vco = 30`, `r = 1`, `d = 1` (so `vco = 6 GHz`,
`pfd = 25 MHz`). -/
def exA : CombinedAssign := ⟨1, 1, ⟨8, 30, 1, 1⟩⟩

/-- The C2 settings use the CPLEX backend tag. -/
lemma exS_solver_known : exS.solver = "gekko" ∨ exS.solver = "CPLEX" :=
  Or.inr rfl

/-- The combined `_converter_clock_config` at the C2 settings: the ratio
`dac_clk / adc_clk = 2` is allowed, so the converter-clock entries are
built. -/
lemma exS_ccc : ad9081.converter_clock_config exS =
    .ok ([("dac_clk", .const (ad9081.dac_clk exS)),
          ("adc_clk", .const (ad9081.adc_clk exS)),
          ("converter_clk", .expr (ad9081.dac_clk exS))],
         ad9081.dac_clk exS) := by
  rw [ad9081.converter_clock_config]
  have hl : ad9081.l_ratio exS ∈ List.map (fun n => (n : ℚ)) l_available := by
    have h2 : ad9081.l_ratio exS = 2 := by
      norm_num [ad9081.l_ratio, ad9081.dac_clk, ad9081.adc_clk, exS]
    rw [h2]
    simp [l_available]
  rw [if_pos hl, if_pos exS_solver_known]

/-- The combined clock build at the C2 settings succeeds, with converter
clock `ad9081.dac_clk exS` (6 GHz). -/
lemma exS_build_ok : ad9081.get_required_clocks exS exA =
    .ok ⟨combined_base_config exS exA ++
          ([("dac_clk", .const (ad9081.dac_clk exS)),
            ("adc_clk", .const (ad9081.adc_clk exS)),
            ("converter_clk", .expr (ad9081.dac_clk exS))] ++
           pll_entries (ad9081.dac_clk exS) exA.pll),
         pll_equations (ad9081.dac_clk exS) ad9081_tx.converter_clock_min
           ad9081_tx.converter_clock_max exA.pll,
         [ref_clk (ad9081.dac_clk exS) exA.pll, adc_sysref exS exA,
          dac_sysref exS exA]⟩ := by
  rw [ad9081.get_required_clocks, if_pos exS_solver_known,
    if_neg (show ¬ exS.clocking_option = "direct" by simp [exS]),
    exS_ccc, ad9081_core.pll_config]

/-- Every constraint registered by the C2 build is satisfied at the C2
assignment. -/
lemma exS_holds : holds (pll_equations (ad9081.dac_clk exS)
    ad9081_tx.converter_clock_min ad9081_tx.converter_clock_max exA.pll) := by
  norm_num [holds, pll_equations, vco, ref_clk, vco_min, vco_max, pfd_min,
    pfd_max, ad9081_tx.converter_clock_min, ad9081_tx.converter_clock_max,
    ad9081.dac_clk, exS, exA]

/-- C2 counterexample: at the concrete settings `exS`/`exA` the combined
PLL configuration is built with shared converter clock
`ad9081.dac_clk exS = 6 GHz`, every registered constraint is satisfied —
yet 6 GHz violates the tighter of the RX and TX converter-clock ranges
(whose upper end is the RX maximum, 4 GHz).  The registered constraint set
therefore does not force the tighter dual-path range the claim states. -/
theorem C2_counterexample :
    ad9081.get_required_clocks exS exA =
      .ok ⟨combined_base_config exS exA ++
            ([("dac_clk", .const (ad9081.dac_clk exS)),
              ("adc_clk", .const (ad9081.adc_clk exS)),
              ("converter_clk", .expr (ad9081.dac_clk exS))] ++
             pll_entries (ad9081.dac_clk exS) exA.pll),
           pll_equations (ad9081.dac_clk exS) ad9081_tx.converter_clock_min
             ad9081_tx.converter_clock_max exA.pll,
           [ref_clk (ad9081.dac_clk exS) exA.pll, adc_sysref exS exA,
            dac_sysref exS exA]⟩ ∧
    ad9081.dac_clk exS = 6000000000 ∧
    holds (pll_equations (ad9081.dac_clk exS) ad9081_tx.converter_clock_min
      ad9081_tx.converter_clock_max exA.pll) ∧
    ¬ ((6000000000 : ℚ) ≤
        min ad9081_rx.converter_clock_max ad9081_tx.converter_clock_max) := by
  refine ⟨exS_build_ok, by norm_num [ad9081.dac_clk, exS], exS_holds, ?_⟩
  norm_num [ad9081_rx.converter_clock_max, ad9081_tx.converter_clock_max]

/-- C2 amended: the registered constraint set forces
`vco_min ≤ vco ≤ vco_max`, `pfd_min ≤ ref_clk / r ≤ pfd_max` and a
converter-clock range; the range applied is the instance's own for a
single-path build (shown for RX), while the combined dual-path device
applies the TX (DAC) path's converter-clock range to the shared converter
clock — not the tighter of the RX and TX ranges. -/
theorem C2_registered_ranges (srx : RxSettings) (arx : RxAssign) (brx : Build)
    (s : CombinedSettings) (a : CombinedAssign) (b : Build)
    (hrx : ad9081_rx.get_required_clocks srx arx = .ok brx)
    (hrxh : holds brx.equations)
    (hc : ad9081.get_required_clocks s a = .ok b)
    (hch : holds b.equations) :
    (vco_min ≤ vco (ad9081_rx.adc_clk srx * (arx.l : ℚ)) arx.pll ∧
     vco (ad9081_rx.adc_clk srx * (arx.l : ℚ)) arx.pll ≤ vco_max ∧
     pfd_min ≤ ref_clk (ad9081_rx.adc_clk srx * (arx.l : ℚ)) arx.pll /
        (arx.pll.r : ℚ) ∧
     ref_clk (ad9081_rx.adc_clk srx * (arx.l : ℚ)) arx.pll /
        (arx.pll.r : ℚ) ≤ pfd_max ∧
     ad9081_rx.converter_clock_min ≤ ad9081_rx.adc_clk srx * (arx.l : ℚ) ∧
     ad9081_rx.adc_clk srx * (arx.l : ℚ) ≤ ad9081_rx.converter_clock_max) ∧
    (vco_min ≤ vco (ad9081.dac_clk s) a.pll ∧
     vco (ad9081.dac_clk s) a.pll ≤ vco_max ∧
     pfd_min ≤ ref_clk (ad9081.dac_clk s) a.pll / (a.pll.r : ℚ) ∧
     ref_clk (ad9081.dac_clk s) a.pll / (a.pll.r : ℚ) ≤ pfd_max ∧
     ad9081_tx.converter_clock_min ≤ ad9081.dac_clk s ∧
     ad9081.dac_clk s ≤ ad9081_tx.converter_clock_max) := by
  rw [rx_build_equations hrx] at hrxh
  rw [combined_build_equations hc] at hch
  obtain ⟨h1, h2, h3, h4, h5, h6⟩ := holds_pll_equations hrxh
  obtain ⟨g1, g2, g3, g4, g5, g6⟩ := holds_pll_equations hch
  exact ⟨⟨h1, h2, h4, h3, h5, h6⟩, ⟨g1, g2, g4, g3, g5, g6⟩⟩

/-- Concrete RX settings for the C2 witness: sample clock 3 GHz,
decimation 1, CPLEX solver, integrated PLL.  Field order: sample_clock,
decimation, multiframe_clock, solver, clocking_option. -/
def exSRx : RxSettings :=
  ⟨3000000000, 1, 1000000, "CPLEX", "integrated_pll"⟩

/-- Concrete RX assignment for the C2 witness: lmfc divisor 1, `l = 1`,
`m_vco = 8`, `n_vco = 30`, `r = 1`, `d = 2` (vco 6 GHz, pfd 25 MHz). -/
def exARx : RxAssign := ⟨1, 1, ⟨8, 30, 1, 2⟩⟩

/-- The RX clock build at the C2 witness settings succeeds. -/
lemma exSRx_build_ok : ad9081_rx.get_required_clocks exSRx exARx =
    .ok ⟨rx_base_config exSRx exARx ++
          ([("l", .dvar l_available exARx.l),
            ("adc_clk", .const (ad9081_rx.adc_clk exSRx)),
            ("converter_clk",
              .expr (ad9081_rx.adc_clk exSRx * (exARx.l : ℚ)))] ++
           pll_entries (ad9081_rx.adc_clk exSRx * (exARx.l : ℚ)) exARx.pll),
         pll_equations (ad9081_rx.adc_clk exSRx * (exARx.l : ℚ))
           ad9081_rx.converter_clock_min ad9081_rx.converter_clock_max
           exARx.pll,
         [ref_clk (ad9081_rx.adc_clk exSRx * (exARx.l : ℚ)) exARx.pll,
          rx_sysref exSRx exARx]⟩ := by
  rw [ad9081_rx.get_required_clocks,
    if_neg (show ¬ exSRx.clocking_option = "direct" by simp [exSRx]),
    ad9081_rx.converter_clock_config,
    if_pos (show exSRx.solver = "gekko" ∨ exSRx.solver = "CPLEX"
      from Or.inr rfl),
    ad9081_core.pll_config]

/-- Every constraint registered by the RX build of the C2 witness is
satisfied at its assignment. -/
lemma exSRx_holds : holds (pll_equations
    (ad9081_rx.adc_clk exSRx * (exARx.l : ℚ)) ad9081_rx.converter_clock_min
    ad9081_rx.converter_clock_max exARx.pll) := by
  norm_num [holds, pll_equations, vco, ref_clk, vco_min, vco_max, pfd_min,
    pfd_max, ad9081_rx.converter_clock_min, ad9081_rx.converter_clock_max,
    ad9081_rx.adc_clk, exSRx, exARx]

/-- Witness for `C2_registered_ranges` at the concrete RX and combined
builds. -/
theorem C2_registered_ranges_witness :
    vco_min ≤ vco (ad9081_rx.adc_clk exSRx * (exARx.l : ℚ)) exARx.pll ∧
    ad9081_tx.converter_clock_min ≤ ad9081.dac_clk exS := by
  have h := C2_registered_ranges exSRx exARx _ exS exA _
    exSRx_build_ok exSRx_holds exS_build_ok exS_holds
  exact ⟨h.1.1, h.2.2.2.2.2.1⟩

/-- C3: in the combined dual-path model, whenever `dac_clk / adc_clk` is
not exactly one of the allowed ratios `{1,2,3,4}`, `_converter_clock_config`
fails with the configuration error whose message names the allowed divider
set ("ADC clock must be DAC clock/L where L=[1, 2, 3, 4]"), before any
config entry is written and before anything is handed to a solver; when the
ratio is allowed (and the backend tag is valid) no such error is raised and
the converter-clock entries are built. -/
theorem C3_ratio_guard (s : CombinedSettings) :
    (ad9081.l_ratio s ∉ List.map (fun n => (n : ℚ)) l_available →
      ad9081.converter_clock_config s =
        .error (ratio_error_message (ad9081.l_ratio s))) ∧
    (ad9081.l_ratio s ∈ List.map (fun n => (n : ℚ)) l_available →
      (s.solver = "gekko" ∨ s.solver = "CPLEX") →
      ad9081.converter_clock_config s =
        .ok ([("dac_clk", .const (ad9081.dac_clk s)),
              ("adc_clk", .const (ad9081.adc_clk s)),
              ("converter_clk", .expr (ad9081.dac_clk s))],
             ad9081.dac_clk s)) := by
  constructor
  · intro h
    rw [ad9081.converter_clock_config, if_neg h]
  · intro h hs
    rw [ad9081.converter_clock_config, if_pos h, if_pos hs]

/-- Concrete combined settings whose clock ratio is 5 (DAC clock 5 GHz,
ADC clock 1 GHz).  Field order: adc_sample_clock, adc_decimation,
adc_multiframe_clock, adc_clocking_option, dac_sample_clock,
dac_interpolation, dac_multiframe_clock, solver, clocking_option. -/
def c3Bad : CombinedSettings :=
  ⟨1000000000, 1, 1000000, "integrated_pll",
   5000000000, 1, 1000000, "CPLEX", "integrated_pll"⟩

/-- Concrete combined settings whose clock ratio is 2 (DAC clock 2 GHz,
ADC clock 1 GHz). -/
def c3Good : CombinedSettings :=
  ⟨1000000000, 1, 1000000, "integrated_pll",
   2000000000, 1, 1000000, "CPLEX", "integrated_pll"⟩

/-- Witness for C3: ratio 5 raises the divider-set error, ratio 2 builds
the converter-clock entries. -/
theorem C3_ratio_guard_witness :
    ad9081.converter_clock_config c3Bad =
      .error (ratio_error_message (ad9081.l_ratio c3Bad)) ∧
    ad9081.converter_clock_config c3Good =
      .ok ([("dac_clk", .const (ad9081.dac_clk c3Good)),
            ("adc_clk", .const (ad9081.adc_clk c3Good)),
            ("converter_clk", .expr (ad9081.dac_clk c3Good))],
           ad9081.dac_clk c3Good) := by
  constructor
  · refine (C3_ratio_guard c3Bad).1 ?_
    have h5 : ad9081.l_ratio c3Bad = 5 := by
      norm_num [ad9081.l_ratio, ad9081.dac_clk, ad9081.adc_clk, c3Bad]
    rw [h5]
    norm_num [l_available]
  · refine (C3_ratio_guard c3Good).2 ?_ (Or.inr rfl)
    have h2 : ad9081.l_ratio c3Good = 2 := by
      norm_num [ad9081.l_ratio, ad9081.dac_clk, ad9081.adc_clk, c3Good]
    rw [h2]
    simp [l_available]

/-- C4: the receive-path model ties
`converter_clock = decimation * sample_clock * l` with `l` a discrete
variable over exactly `{1,2,3,4}`, while the transmit-path model ties
`converter_clock = interpolation * sample_clock` directly, creating no
divider variable at all. -/
theorem C4_path_relations (srx : RxSettings) (l : Nat) (stx : TxSettings)
    (erx etx : List (String × Entry)) (ccrx cctx : ℚ)
    (hrx : ad9081_rx.converter_clock_config srx l = .ok (erx, ccrx))
    (htx : ad9081_tx.converter_clock_config stx = .ok (etx, cctx)) :
    ccrx = srx.decimation * srx.sample_clock * (l : ℚ) ∧
    ("l", Entry.dvar [1, 2, 3, 4] l) ∈ erx ∧
    cctx = stx.interpolation * stx.sample_clock ∧
    (∀ dom v, ("l", Entry.dvar dom v) ∉ etx) := by
  unfold ad9081_rx.converter_clock_config at hrx
  unfold ad9081_tx.converter_clock_config at htx
  split at hrx
  · simp only [Except.ok.injEq, Prod.mk.injEq] at hrx
    split at htx
    · simp only [Except.ok.injEq, Prod.mk.injEq] at htx
      refine ⟨?_, ?_, ?_, ?_⟩
      · rw [← hrx.2, ad9081_rx.adc_clk]
      · rw [← hrx.1]
        simp [l_available]
      · rw [← htx.2, ad9081_tx.dac_clk]
      · intro dom v
        rw [← htx.1]
        simp
    · exact absurd htx (by simp)
  · exact absurd hrx (by simp)

/-- Concrete TX settings: sample clock 3 GHz, interpolation 2, CPLEX,
integrated PLL.  Field order: sample_clock, interpolation,
multiframe_clock, solver, clocking_option. -/
def c4STx : TxSettings :=
  ⟨3000000000, 2, 1000000, "CPLEX", "integrated_pll"⟩

/-- Witness for C4 at the concrete RX settings `exSRx` with `l = 2` and the
concrete TX settings `c4STx`. -/
theorem C4_path_relations_witness :
    ad9081_rx.adc_clk exSRx * ((2 : Nat) : ℚ) =
      exSRx.decimation * exSRx.sample_clock * ((2 : Nat) : ℚ) ∧
    ad9081_tx.dac_clk c4STx = c4STx.interpolation * c4STx.sample_clock := by
  have h := C4_path_relations exSRx 2 c4STx _ _ _ _
    (by rw [ad9081_rx.converter_clock_config,
          if_pos (show exSRx.solver = "gekko" ∨ exSRx.solver = "CPLEX"
            from Or.inr rfl)])
    (by rw [ad9081_tx.converter_clock_config,
          if_pos (show c4STx.solver = "gekko" ∨ c4STx.solver = "CPLEX"
            from Or.inr rfl)])
  exact ⟨h.1, h.2.2.1⟩

/-- C5: with `clocking_option = "direct"`, `get_required_clocks` of the
single-path models fails with the "Not implemented yet" exception, and the
combined model does too for every valid backend tag; no direct-clocking
call ever falls through to a successfully built (integrated-PLL)
configuration. -/
theorem C5_direct_unimplemented :
    (∀ (s : RxSettings) (a : RxAssign), s.clocking_option = "direct" →
      ad9081_rx.get_required_clocks s a = .error "Not implemented yet") ∧
    (∀ (s : TxSettings) (a : TxAssign), s.clocking_option = "direct" →
      ad9081_tx.get_required_clocks s a = .error "Not implemented yet") ∧
    (∀ (s : CombinedSettings) (a : CombinedAssign),
      s.clocking_option = "direct" →
      ((s.solver = "gekko" ∨ s.solver = "CPLEX") →
        ad9081.get_required_clocks s a = .error "Not implemented yet") ∧
      ∀ b, ad9081.get_required_clocks s a ≠ .ok b) := by
  refine ⟨fun s a h => ?_, fun s a h => ?_,
    fun s a h => ⟨fun hs => ?_, fun b hb => ?_⟩⟩
  · rw [ad9081_rx.get_required_clocks, if_pos h]
  · rw [ad9081_tx.get_required_clocks, if_pos h]
  · rw [ad9081.get_required_clocks, if_pos hs, if_pos h]
  · rw [ad9081.get_required_clocks] at hb
    by_cases hs : s.solver = "gekko" ∨ s.solver = "CPLEX"
    · rw [if_pos hs, if_pos h] at hb
      exact Except.noConfusion hb
    · rw [if_neg hs] at hb
      exact Except.noConfusion hb

/-- Concrete RX settings selecting direct clocking. -/
def c5SRx : RxSettings :=
  ⟨3000000000, 1, 1000000, "CPLEX", "direct"⟩

/-- Concrete combined settings selecting direct clocking. -/
def c5SC : CombinedSettings :=
  ⟨3000000000, 1, 1000000, "integrated_pll",
   6000000000, 1, 1000000, "CPLEX", "direct"⟩

/-- Witness for C5: the direct-clocking RX and combined calls fail with
the "Not implemented yet" exception at concrete settings. -/
theorem C5_direct_unimplemented_witness :
    ad9081_rx.get_required_clocks c5SRx ⟨1, 1, ⟨8, 30, 1, 1⟩⟩ =
      .error "Not implemented yet" ∧
    ad9081.get_required_clocks c5SC ⟨1, 1, ⟨8, 30, 1, 1⟩⟩ =
      .error "Not implemented yet" := by
  exact ⟨C5_direct_unimplemented.1 c5SRx _ rfl,
    (C5_direct_unimplemented.2.2 c5SC _ rfl).1 (Or.inr rfl)⟩

/-- Full shape of a successful RX `get_required_clocks` build. -/
lemma rx_build_spec {s : RxSettings} {a : RxAssign} {b : Build}
    (h : ad9081_rx.get_required_clocks s a = .ok b) :
    b = ⟨rx_base_config s a ++
          ([("l", .dvar l_available a.l),
            ("adc_clk", .const (ad9081_rx.adc_clk s)),
            ("converter_clk",
              .expr (ad9081_rx.adc_clk s * (a.l : ℚ)))] ++
           pll_entries (ad9081_rx.adc_clk s * (a.l : ℚ)) a.pll),
         pll_equations (ad9081_rx.adc_clk s * (a.l : ℚ))
           ad9081_rx.converter_clock_min ad9081_rx.converter_clock_max a.pll,
         [ref_clk (ad9081_rx.adc_clk s * (a.l : ℚ)) a.pll,
          rx_sysref s a]⟩ := by
  unfold ad9081_rx.get_required_clocks at h
  split at h
  · simp at h
  · cases hc : ad9081_rx.converter_clock_config s a.l with
    | error e => rw [hc] at h; simp [ad9081_core.pll_config] at h
    | ok p =>
        obtain ⟨entries, cc⟩ := p
        rw [hc] at h
        simp only [ad9081_core.pll_config, Except.ok.injEq] at h
        unfold ad9081_rx.converter_clock_config at hc
        split at hc
        · simp only [Except.ok.injEq, Prod.mk.injEq] at hc
          obtain ⟨he, hcc⟩ := hc
          subst he
          subst hcc
          rw [← h]
        · simp at hc

/-- Full shape of a successful combined `get_required_clocks` build. -/
lemma combined_build_spec {s : CombinedSettings} {a : CombinedAssign}
    {b : Build} (h : ad9081.get_required_clocks s a = .ok b) :
    b = ⟨combined_base_config s a ++
          ([("dac_clk", .const (ad9081.dac_clk s)),
            ("adc_clk", .const (ad9081.adc_clk s)),
            ("converter_clk", .expr (ad9081.dac_clk s))] ++
           pll_entries (ad9081.dac_clk s) a.pll),
         pll_equations (ad9081.dac_clk s) ad9081_tx.converter_clock_min
           ad9081_tx.converter_clock_max a.pll,
         [ref_clk (ad9081.dac_clk s) a.pll, adc_sysref s a,
          dac_sysref s a]⟩ := by
  unfold ad9081.get_required_clocks at h
  split at h
  · split at h
    · simp at h
    · cases hc : ad9081.converter_clock_config s with
      | error e => rw [hc] at h; simp [ad9081_core.pll_config] at h
      | ok p =>
          obtain ⟨entries, cc⟩ := p
          rw [hc] at h
          simp only [ad9081_core.pll_config, Except.ok.injEq] at h
          unfold ad9081.converter_clock_config at hc
          split at hc
          · simp only [Except.ok.injEq, Prod.mk.injEq] at hc
            obtain ⟨he, hcc⟩ := hc
            subst he
            subst hcc
            rw [← h]
          · simp at hc
  · simp at h

/-- C6: for each direction, `get_required_clocks` builds the SYSREF
quantity as `multiframe_clock / (lmfc_divisor_sysref *
lmfc_divisor_sysref)` — quadratic in the single divisor variable — and the
divisor's declared domain is exactly the integers 1..20; the sysref value
is returned after the device clock (positions 1, and 1 and 2 for the
combined model's ADC/DAC pair). -/
theorem C6_sysref_quadratic :
    lmfc_divisor_domain =
      [1, 2, 3, 4, 5, 6, 7, 8, 9, 10,
       11, 12, 13, 14, 15, 16, 17, 18, 19, 20] ∧
    (∀ (s : RxSettings) (a : RxAssign) (b : Build),
      ad9081_rx.get_required_clocks s a = .ok b →
      ("lmfc_divisor_sysref",
        Entry.dvar lmfc_divisor_domain a.lmfc_divisor_sysref) ∈ b.config ∧
      b.clocks.get? 1 = some (s.multiframe_clock /
        ((a.lmfc_divisor_sysref : ℚ) * (a.lmfc_divisor_sysref : ℚ)))) ∧
    (∀ (s : CombinedSettings) (a : CombinedAssign) (b : Build),
      ad9081.get_required_clocks s a = .ok b →
      ("adc_lmfc_divisor_sysref",
        Entry.dvar lmfc_divisor_domain a.adc_lmfc_divisor_sysref) ∈ b.config ∧
      ("dac_lmfc_divisor_sysref",
        Entry.dvar lmfc_divisor_domain a.dac_lmfc_divisor_sysref) ∈ b.config ∧
      b.clocks.get? 1 = some (s.adc_multiframe_clock /
        ((a.adc_lmfc_divisor_sysref : ℚ) * (a.adc_lmfc_divisor_sysref : ℚ))) ∧
      b.clocks.get? 2 = some (s.dac_multiframe_clock /
        ((a.dac_lmfc_divisor_sysref : ℚ) *
          (a.dac_lmfc_divisor_sysref : ℚ)))) := by
  refine ⟨by decide, fun s a b h => ?_, fun s a b h => ?_⟩
  · rw [rx_build_spec h]
    constructor
    · simp [rx_base_config]
    · rfl
  · rw [combined_build_spec h]
    refine ⟨?_, ?_, rfl, rfl⟩
    · simp [combined_base_config]
    · simp [combined_base_config]

/-- Witness for C6 at the concrete RX and combined builds (`exSRx`/`exARx`
and `exS`/`exA`). -/
theorem C6_sysref_quadratic_witness :
    ("lmfc_divisor_sysref",
      Entry.dvar lmfc_divisor_domain exARx.lmfc_divisor_sysref) ∈
      (rx_base_config exSRx exARx ++
        ([("l", .dvar l_available exARx.l),
          ("adc_clk", .const (ad9081_rx.adc_clk exSRx)),
          ("converter_clk",
            .expr (ad9081_rx.adc_clk exSRx * (exARx.l : ℚ)))] ++
         pll_entries (ad9081_rx.adc_clk exSRx * (exARx.l : ℚ))
           exARx.pll)) ∧
    [ref_clk (ad9081.dac_clk exS) exA.pll, adc_sysref exS exA,
        dac_sysref exS exA].get? 1 =
      some (exS.adc_multiframe_clock /
        ((exA.adc_lmfc_divisor_sysref : ℚ) *
          (exA.adc_lmfc_divisor_sysref : ℚ))) := by
  have h1 := C6_sysref_quadratic.2.1 exSRx exARx _ exSRx_build_ok
  have h2 := C6_sysref_quadratic.2.2 exS exA _ exS_build_ok
  exact ⟨h1.1, h2.2.2.1⟩

/-- C7: `get_required_clocks` fully discards the previous `config`
namespace at the start of each call (`self.config = {}`): the result does
not depend on the namespace left by an earlier call, and a second call on
the unchanged instance returns exactly the state the first call produced —
the rebuild is idempotent, not additive. -/
theorem C7_rebuild_idempotent :
    (∀ (st : RxState) (c : List (String × Entry)) (a : RxAssign),
      RxState.call ⟨st.settings, c⟩ a = RxState.call st a) ∧
    (∀ (st : RxState) (a : RxAssign) (st2 : RxState),
      RxState.call st a = .ok st2 → RxState.call st2 a = .ok st2) ∧
    (∀ (st : Ad9081State) (c : List (String × Entry)) (a : CombinedAssign),
      Ad9081State.call ⟨st.settings, st.adc_config, st.dac_config, c⟩ a =
        Ad9081State.call st a) ∧
    (∀ (st : Ad9081State) (a : CombinedAssign) (st2 : Ad9081State),
      Ad9081State.call st a = .ok st2 → Ad9081State.call st2 a = .ok st2) := by
  refine ⟨fun st c a => rfl, fun st a st2 h => ?_,
    fun st c a => rfl, fun st a st2 h => ?_⟩
  · unfold RxState.call at h
    cases hg : ad9081_rx.get_required_clocks st.settings a with
    | error e => rw [hg] at h; exact Except.noConfusion h
    | ok b =>
        rw [hg] at h
        simp only [Except.ok.injEq] at h
        subst h
        simp only [RxState.call]
        rw [hg]
  · unfold Ad9081State.call at h
    cases hg : ad9081.get_required_clocks st.settings a with
    | error e => rw [hg] at h; exact Except.noConfusion h
    | ok b =>
        rw [hg] at h
        simp only [Except.ok.injEq] at h
        subst h
        simp only [Ad9081State.call]
        rw [hg]

/-- Config namespace the RX model builds at the concrete settings
`exSRx`/`exARx`. -/
def rxBuiltConfig : List (String × Entry) :=
  rx_base_config exSRx exARx ++
    ([("l", .dvar l_available exARx.l),
      ("adc_clk", .const (ad9081_rx.adc_clk exSRx)),
      ("converter_clk", .expr (ad9081_rx.adc_clk exSRx * (exARx.l : ℚ)))] ++
     pll_entries (ad9081_rx.adc_clk exSRx * (exARx.l : ℚ)) exARx.pll)

/-- Config namespace the combined model builds at the concrete settings
`exS`/`exA`. -/
def combinedBuiltConfig : List (String × Entry) :=
  combined_base_config exS exA ++
    ([("dac_clk", .const (ad9081.dac_clk exS)),
      ("adc_clk", .const (ad9081.adc_clk exS)),
      ("converter_clk", .expr (ad9081.dac_clk exS))] ++
     pll_entries (ad9081.dac_clk exS) exA.pll)

/-- Instance-level RX call at the concrete settings, from an empty
namespace. -/
lemma rx_call_ok :
    RxState.call ⟨exSRx, []⟩ exARx = .ok ⟨exSRx, rxBuiltConfig⟩ := by
  unfold RxState.call
  rw [show (⟨exSRx, []⟩ : RxState).settings = exSRx from rfl, exSRx_build_ok]
  rfl

/-- Instance-level combined call at the concrete settings, from non-empty
stale sub-model namespaces and an own namespace left by a previous call. -/
lemma combined_call_ok :
    Ad9081State.call
        ⟨exS, [("stale_adc", Entry.const 1)], [("stale_dac", Entry.const 2)],
         [("stale_own", Entry.const 3)]⟩ exA =
      .ok ⟨exS, [("stale_adc", Entry.const 1)], [("stale_dac", Entry.const 2)],
           combinedBuiltConfig⟩ := by
  unfold Ad9081State.call
  rw [show (⟨exS, [("stale_adc", Entry.const 1)],
      [("stale_dac", Entry.const 2)],
      [("stale_own", Entry.const 3)]⟩ : Ad9081State).settings = exS from rfl,
    exS_build_ok]
  rfl

/-- Witness for C7: at the concrete RX instance the calls from an empty and
a freshly built namespace agree, and both the RX and the combined rebuilt
states are fixed points of a second call. -/
theorem C7_rebuild_idempotent_witness :
    RxState.call ⟨exSRx, rxBuiltConfig⟩ exARx =
      RxState.call ⟨exSRx, []⟩ exARx ∧
    RxState.call ⟨exSRx, rxBuiltConfig⟩ exARx =
      .ok ⟨exSRx, rxBuiltConfig⟩ ∧
    Ad9081State.call
        ⟨exS, [("stale_adc", Entry.const 1)], [("stale_dac", Entry.const 2)],
         combinedBuiltConfig⟩ exA =
      .ok ⟨exS, [("stale_adc", Entry.const 1)], [("stale_dac", Entry.const 2)],
           combinedBuiltConfig⟩ := by
  refine ⟨?_, ?_, ?_⟩
  · exact C7_rebuild_idempotent.1 ⟨exSRx, []⟩ rxBuiltConfig exARx
  · exact C7_rebuild_idempotent.2.1 ⟨exSRx, []⟩ exARx
      ⟨exSRx, rxBuiltConfig⟩ rx_call_ok
  · exact C7_rebuild_idempotent.2.2.2
      ⟨exS, [("stale_adc", Entry.const 1)], [("stale_dac", Entry.const 2)],
       [("stale_own", Entry.const 3)]⟩ exA
      ⟨exS, [("stale_adc", Entry.const 1)], [("stale_dac", Entry.const 2)],
       combinedBuiltConfig⟩ combined_call_ok

/-- C8 evidence: `ad9081_core.get_config` returns the flat
`clocking_option` mapping unconditionally — it performs no solve-state
check and can never fail with a `NotSolvedError`, whatever the solve state
(`solution` argument) is. -/
theorem C8_get_config_unconditional (clocking_option : String)
    (solution : Option Unit) :
    ad9081_core.get_config clocking_option solution =
      .ok [("clocking_option", clocking_option)] := rfl

/-- C9: the combined model's required-clock names are three, with the first
chosen by the ADC sub-model's clocking option, while the clocks built by
`get_required_clocks` branch on the combined instance's own clocking
option: a successful build implies the own option is not "direct" and its
first clock is the PLL reference — so the first name matches the built
clock only when the two attributes agree. -/
theorem C9_names_vs_clocks (s : CombinedSettings) (a : CombinedAssign) :
    (ad9081.get_required_clock_names s).length = 3 ∧
    ((ad9081.get_required_clock_names s).head? = some "ad9081_dac_clock" ↔
      s.adc_clocking_option = "direct") ∧
    (∀ b, ad9081.get_required_clocks s a = .ok b →
      ¬ s.clocking_option = "direct" ∧
      b.clocks.head? = some (ref_clk (ad9081.dac_clk s) a.pll)) := by
  refine ⟨rfl, ?_, fun b hb => ⟨?_, ?_⟩⟩
  · by_cases h : s.adc_clocking_option = "direct" <;>
      simp [ad9081.get_required_clock_names, h]
  · intro hd
    rw [ad9081.get_required_clocks] at hb
    by_cases hs : s.solver = "gekko" ∨ s.solver = "CPLEX"
    · rw [if_pos hs, if_pos hd] at hb
      exact Except.noConfusion hb
    · rw [if_neg hs] at hb
      exact Except.noConfusion hb
  · rw [combined_build_spec hb]
    rfl

/-- Concrete combined settings whose ADC sub-model selects direct clocking
while the combined instance itself selects the integrated PLL. -/
def c9S : CombinedSettings :=
  ⟨3000000000, 1, 1000000, "direct",
   6000000000, 1, 1000000, "CPLEX", "integrated_pll"⟩

/-- Witness for C9: at `c9S` the first required-clock name is the direct
DAC clock (chosen by the ADC sub-model's option), and at the concrete
agreeing settings `exS` the build succeeds with the PLL reference first. -/
theorem C9_names_vs_clocks_witness :
    (ad9081.get_required_clock_names c9S).head? = some "ad9081_dac_clock" ∧
    ¬ exS.clocking_option = "direct" ∧
    [ref_clk (ad9081.dac_clk exS) exA.pll, adc_sysref exS exA,
        dac_sysref exS exA].head? =
      some (ref_clk (ad9081.dac_clk exS) exA.pll) := by
  have h9 := (C9_names_vs_clocks c9S exA).2.1.mpr rfl
  have hx := (C9_names_vs_clocks exS exA).2.2 _ exS_build_ok
  exact ⟨h9, hx.1, hx.2⟩

/-- C10: the combined `get_required_clocks` never touches the ADC or DAC
sub-model `config` namespaces (it only reads their attributes); every new
entry goes into the combined instance's own namespace, and the discrete
settings are unchanged too. -/
theorem C10_subconfigs_untouched (st : Ad9081State) (a : CombinedAssign)
    (st2 : Ad9081State) (h : Ad9081State.call st a = .ok st2) :
    st2.adc_config = st.adc_config ∧ st2.dac_config = st.dac_config ∧
    st2.settings = st.settings := by
  unfold Ad9081State.call at h
  cases hg : ad9081.get_required_clocks st.settings a with
  | error e => rw [hg] at h; exact Except.noConfusion h
  | ok b =>
      rw [hg] at h
      simp only [Except.ok.injEq] at h
      subst h
      exact ⟨rfl, rfl, rfl⟩

/-- Witness for C10 at the concrete combined call with non-empty stale
sub-model namespaces. -/
theorem C10_subconfigs_untouched_witness :
    ([("stale_adc", Entry.const 1)] : List (String × Entry)) =
      [("stale_adc", Entry.const 1)] ∧
    ([("stale_dac", Entry.const 2)] : List (String × Entry)) =
      [("stale_dac", Entry.const 2)] := by
  have h := C10_subconfigs_untouched
    ⟨exS, [("stale_adc", Entry.const 1)], [("stale_dac", Entry.const 2)],
     [("stale_own", Entry.const 3)]⟩ exA
    ⟨exS, [("stale_adc", Entry.const 1)], [("stale_dac", Entry.const 2)],
     combinedBuiltConfig⟩ combined_call_ok
  exact ⟨h.1, h.2.1⟩

end AD9081
